import Mathlib

/-!
Verification development for the `icon_changer` repository's property-access
layer (`libx11_wrapper/_interface.py` and `libx11_wrapper/_raw.py`).

The Python code is shallowly embedded as executable Lean definitions:

* the icon codec of `Window.icon` (getter lines 216-234, setter lines 236-246
  of `_interface.py`), with PIL images modelled as their mode, size and raw
  `tobytes()` byte list, and each native 32-bit `array.array` element
  represented by its bit pattern as a `Nat` below `2 ^ 32`;
* the snapshot / mutate / write / restore protocol of the icon setter
  (lines 248-264), over a window state holding the five properties that the
  protocol touches, with the `XChangeProperty` call for `_NET_WM_ICON`
  optionally fault-injected;
* the chunked property transport `GetWindowProperty` of `_raw.py`
  (lines 102-177), with the X server modelled as an environment function
  answering one bounded read per call;
* the text-property accessors and `Display.__init__`.

Python exceptions are modelled as `Except` errors; each constructor of
`X11Error` names the concrete Python exception it stands for.
-/

/-- Failures of the embedded layer.  Each constructor models one concrete
Python exception raised by the source. -/
inductive X11Error where
  /-- The spec's `ConnectionError` for a failed display open (the source never
  raises it; kept to state claims about `Display.__init__`). -/
  | connectionError : X11Error
  /-- Models `NameError`: `_raw.py` line 153 evaluates `c_short`, a name that is
  never imported (the import list has only `c_ushort`). -/
  | nameErrorCShort : X11Error
  /-- Models `RuntimeError(f"Unexpected bit-size of property: ...")`, `_raw.py`
  line 160, carrying the reported format. -/
  | unexpectedBitSize : Nat → X11Error
  /-- Models `UnicodeDecodeError` from `bytes.decode("utf-8")` in
  `get_text_property`. -/
  | unicodeDecodeError : X11Error
  /-- Models `AssertionError` from `assert im.mode == "RGBA"` in the icon setter. -/
  | assertionError : X11Error
  /-- Models `ValueError` from `array.array("i", buf)` when `len(buf)` is not a
  multiple of the 4-byte item size. -/
  | arrayValueError : X11Error
  /-- Models `IndexError` from indexing past the end of a list (`data[0]` on an
  empty list in the icon setter, `data[1]` on a 1-element tail in the
  icon getter). -/
  | indexError : X11Error
  /-- Models `ValueError("not enough image data")` from `Image.frombytes` when the
  byte string is shorter than the image needs; this is the failure the spec
  names `MalformedIconData`. -/
  | malformedIconData : X11Error
  /-- A fault injected into the `XChangeProperty` request that writes
  `_NET_WM_ICON`, modelling a failing property write. -/
  | injectedWriteFault : X11Error
deriving DecidableEq

/-- A PIL image as the icon codec observes it: its `mode` string, its
`size = (width, height)` pair, and the raw bytes of `im.tobytes()`
(for mode `"RGBA"` these are `R, G, B, A` per pixel, row-major). -/
structure PilImage where
  mode : String
  size : Nat × Nat
  data : List Nat
deriving DecidableEq

/-- The icon dictionary `Dict[Tuple[int, int], Image.Image]`, as an
insertion-ordered association list, which is how a Python `dict` iterates. -/
abbrev IconSet := List ((Nat × Nat) × PilImage)

/-- Models `array.array("i", buf)` on a byte string: reinterpret each aligned group
of 4 bytes as one native little-endian 32-bit element.  The element is
represented by its bit pattern as a `Nat` below `2 ^ 32`.  The caller checks
divisibility by 4 first (a trailing group of fewer than 4 bytes would raise
`ValueError` in Python and is dropped here). -/
def wordsOfBytes : List Nat → List Nat
  | b0 :: b1 :: b2 :: b3 :: rest =>
      (b0 + 256 * b1 + 65536 * b2 + 16777216 * b3) :: wordsOfBytes rest
  | _ => []

/-- Models `arr.tobytes()` on a 32-bit `array.array`: each element back to its 4
little-endian bytes. -/
def bytesOfWords : List Nat → List Nat
  | [] => []
  | w :: rest =>
      w % 256 :: w / 256 % 256 :: w / 65536 % 256 :: w / 16777216 % 256 ::
        bytesOfWords rest

/-- The bytes of an `"RGBA"` image grouped pixel-wise as `(r, g, b, a)`
quadruples (a trailing incomplete pixel is dropped). -/
def pixelQuads : List Nat → List (Nat × Nat × Nat × Nat)
  | r :: g :: b :: a :: rest => (r, g, b, a) :: pixelQuads rest
  | _ => []

/-- Models `Image.frombytes("RGBA", size, buf)`: builds an RGBA image of the given
size from exactly `4 * width * height` bytes; with fewer bytes PIL raises
`ValueError("not enough image data")` (the slice in the caller never supplies
more). -/
def pilFrombytes (size : Nat × Nat) (buf : List Nat) : Except X11Error PilImage :=
  if buf.length = 4 * size.1 * size.2 then
    .ok { mode := "RGBA", size := size, data := buf }
  else
    .error X11Error.malformedIconData

/-- Models `output[size] = im` on a Python dict modelled as an insertion-ordered
association list: replace in place if the key exists, else append. -/
def dictInsert (d : IconSet) (k : Nat × Nat) (v : PilImage) : IconSet :=
  if d.any (fun kv => kv.1 = k) then
    d.map (fun kv => if kv.1 = k then (k, v) else kv)
  else
    d ++ [(k, v)]

/-- The `while data:` loop of the icon getter (`_interface.py` lines
224-232): read a `[width, height]` header, slice the next `width * height`
32-bit elements, turn them back into bytes and hand them to
`Image.frombytes`, then continue on the remainder.  A 1-element remainder
makes `data[1]` raise `IndexError`. -/
def decodeLoop : List Nat → IconSet → Except X11Error IconSet
  | [], output => .ok output
  | [_], _ => .error X11Error.indexError
  | width :: height :: rest, output =>
      let image_data := rest.take (width * height)
      match pilFrombytes (width, height) (bytesOfWords image_data) with
      | .error e => .error e
      | .ok im => decodeLoop (rest.drop (width * height)) (dictInsert output (width, height) im)
termination_by data _ => data.length
decreasing_by
  simp only [List.length_drop, List.length_cons]
  omega

/-- The icon getter's decode of a present `_NET_WM_ICON` value: run the
loop with `output = {}`. -/
def iconDecode (data : List Nat) : Except X11Error IconSet :=
  decodeLoop data []

/-- The `for size, im in value.items():` loop of the icon setter
(`_interface.py` lines 241-245).  For each image it asserts
`im.mode == "RGBA"`, then builds the pair of arrays
`array("i", size)` and `array("i", im.tobytes())`; the two arrays of one
image are kept here as their single concatenation
`[width, height] ++ words`, which concatenates to the same flat data. -/
def encodeParts : IconSet → Except X11Error (List (List Nat))
  | [] => .ok []
  | (size, im) :: rest =>
      if im.mode ≠ "RGBA" then .error X11Error.assertionError
      else if im.data.length % 4 ≠ 0 then .error X11Error.arrayValueError
      else
        match encodeParts rest with
        | .error e => .error e
        | .ok parts => .ok (([size.1, size.2] ++ wordsOfBytes im.data) :: parts)

/-- The icon setter's encode (`_interface.py` lines 238-246): build the
per-image arrays, then flatten them with `data = sum(data[1:], data[0])` —
which raises `IndexError` on an empty icon dictionary. -/
def iconEncode (value : IconSet) : Except X11Error (List Nat) :=
  match encodeParts value with
  | .error e => .error e
  | .ok [] => .error X11Error.indexError
  | .ok (p :: ps) => .ok (ps.foldl (· ++ ·) p)

/-- The server-side window properties the icon setter's protocol touches,
each exposed by one attribute-style accessor of `Window`. -/
structure WindowState where
  /-- Property `_NET_WM_PID` (`Window.pid`). -/
  pid : Option Nat
  /-- Property `WM_CLASS` (`Window.class_hint`), a `(res_name, res_class)` pair. -/
  class_hint : Option (String × String)
  /-- Property `_GTK_APPLICATION_ID` (`Window.gtk_application_id`). -/
  gtk_application_id : Option String
  /-- Property `_NET_STARTUP_ID` (`Window.startup_id`). -/
  startup_id : Option String
  /-- Property `_NET_WM_ICON`, as the flat 32-bit value last written. -/
  icon : Option (List Nat)
deriving DecidableEq

/-- The icon setter (`_interface.py` lines 236-264).  Encode the icon
dictionary; snapshot `pid`, `class_hint`, `gtk_application_id` and
`startup_id`; set `pid` to the placeholder `2 ** 21`; delete `class_hint`
and `gtk_application_id`; write `_NET_WM_ICON` inside `try:`; and in the
`finally:` block restore, in snapshot order, every snapshotted value that
is not `None`.  `writeFails` injects a fault into the `XChangeProperty`
write; the result pairs the exception that propagates (if any) with the
window state after the call. -/
def iconSetRun (w : WindowState) (value : IconSet) (writeFails : Bool) :
    Option X11Error × WindowState :=
  match iconEncode value with
  | .error e => (some e, w)
  | .ok data =>
      let backup_pid := w.pid
      let backup_class_hint := w.class_hint
      let backup_gtk_application_id := w.gtk_application_id
      let backup_startup_id := w.startup_id
      let w := { w with pid := some 2097152 }
      let w := { w with class_hint := none }
      let w := { w with gtk_application_id := none }
      let res_w :=
        if writeFails then (some X11Error.injectedWriteFault, w)
        else ((none : Option X11Error), { w with icon := some data })
      let w := res_w.2
      let w := match backup_pid with
        | some v => { w with pid := some v }
        | none => w
      let w := match backup_class_hint with
        | some v => { w with class_hint := some v }
        | none => w
      let w := match backup_gtk_application_id with
        | some v => { w with gtk_application_id := some v }
        | none => w
      let w := match backup_startup_id with
        | some v => { w with startup_id := some v }
        | none => w
      (res_w.1, w)

/-- A property as the X server stores it: its type atom, its element
bit-width (`format`), and its value as a list of `format`-bit items. -/
structure PropValue where
  type_atom : Nat
  format : Nat
  data : List Nat
deriving DecidableEq

/-- One `XGetWindowProperty` reply: the out-parameters
`actual_type_return`, `actual_format_return`, `nitems_return`,
`bytes_after_return` and the returned items. -/
structure ReadReply where
  actual_type : Nat
  actual_format : Nat
  nitems : Nat
  bytes_after : Nat
  items : List Nat
deriving DecidableEq

/-- How many `format`-bit items fit in one 32-bit transport long. -/
def unitsPerLong (format : Nat) : Nat := 32 / format

/-- Bytes per `format`-bit item. -/
def bytesPerItem (format : Nat) : Nat := format / 8

/-- The X server's answer to one bounded `XGetWindowProperty` request:
`long_offset` and `long_length` address the value in 32-bit longs, the
reply counts items in `format`-bit units and reports the bytes left past
the returned chunk.  An absent property answers with the null type atom
and no data; a request whose non-null `req_type` differs from the stored
type answers with the type information only, all data left unread. -/
def serverRead (p : Option PropValue) (long_offset long_length req_type : Nat) :
    ReadReply :=
  match p with
  | none => ⟨0, 0, 0, 0, []⟩
  | some pv =>
      if req_type ≠ 0 ∧ req_type ≠ pv.type_atom then
        ⟨pv.type_atom, pv.format, 0, pv.data.length * bytesPerItem pv.format, []⟩
      else
        let start_item := long_offset * unitsPerLong pv.format
        let nitems := min (pv.data.length - start_item)
          (long_length * unitsPerLong pv.format)
        ⟨pv.type_atom, pv.format, nitems,
          (pv.data.length - start_item - nitems) * bytesPerItem pv.format,
          (pv.data.drop start_item).take nitems⟩

/-- The `while True:` read loop of `GetWindowProperty` (`_raw.py` lines
121-177), already past the line `expected_return_type = XAtom(0)`, so every
request is issued with request type 0.  Each pass reads at most
`long_length = 65536` longs at the current offset; a null `actual_type`
returns `None`; a reported format of 8 or 32 decodes the chunk (the source
checks 8, then 16, then 32, then the failure case — the 8-or-32 test here
keeps the same selection); format 16 evaluates the unimported name
`c_short` and raises `NameError`; any other format raises `RuntimeError`.
When bytes remain the offset advances by `long_length` and the next chunks
are concatenated after this one, reproducing `sum(chunks[1:], chunks[0])`. -/
def getPropGo (p : Option PropValue) (long_offset : Nat) :
    Except X11Error (Option (List Nat)) :=
  if h0 : (serverRead p long_offset 65536 0).actual_type = 0 then .ok none
  else if hf : (serverRead p long_offset 65536 0).actual_format = 8 ∨
      (serverRead p long_offset 65536 0).actual_format = 32 then
    if hb : (serverRead p long_offset 65536 0).bytes_after = 0 then
      .ok (some (serverRead p long_offset 65536 0).items)
    else
      match getPropGo p (long_offset + 65536) with
      | .error e => .error e
      | .ok none => .ok none
      | .ok (some rest) => .ok (some ((serverRead p long_offset 65536 0).items ++ rest))
  else if (serverRead p long_offset 65536 0).actual_format = 16 then
    .error X11Error.nameErrorCShort
  else .error (X11Error.unexpectedBitSize (serverRead p long_offset 65536 0).actual_format)
termination_by
  match p with
  | none => 0
  | some pv => pv.data.length - long_offset * unitsPerLong pv.format
decreasing_by
  rcases p with _ | pv
  · simp [serverRead] at h0
  · simp [serverRead] at hf hb
    rcases hf with hf | hf <;>
      simp only [unitsPerLong, bytesPerItem] at hb ⊢ <;>
      rw [hf] at hb ⊢ <;> omega

/-- Function `GetWindowProperty` of `_raw.py` (lines 102-177).  The caller-supplied
`expected_return_type` is overwritten with `XAtom(0)` (line 119) before the
loop starts, so the requests never carry it. -/
def GetWindowProperty (p : Option PropValue) (expected_return_type : Nat) :
    Except X11Error (Option (List Nat)) :=
  getPropGo p 0

/-- Reading the whole property in one unbounded call: a single bounded read
at offset 0 whose `long_length` the caller picks large enough for the whole
value, decoded exactly as one chunk of the loop.  This is the reference
behaviour the chunked loop is compared against. -/
def getWindowPropertySingleRead (p : Option PropValue) (long_length : Nat) :
    Except X11Error (Option (List Nat)) :=
  let reply := serverRead p 0 long_length 0
  if reply.actual_type = 0 then .ok none
  else if reply.actual_format = 8 ∨ reply.actual_format = 32 then
    .ok (some reply.items)
  else if reply.actual_format = 16 then .error X11Error.nameErrorCShort
  else .error (X11Error.unexpectedBitSize reply.actual_format)

/-- UTF-8 encoding of one Unicode code point, as Python's
`str.encode("utf-8")` produces it. -/
def utf8EncodeChar (c : Nat) : List Nat :=
  if c < 128 then [c]
  else if c < 2048 then [192 + c / 64, 128 + c % 64]
  else if c < 65536 then [224 + c / 4096, 128 + c / 64 % 64, 128 + c % 64]
  else [240 + c / 262144, 128 + c / 4096 % 64, 128 + c / 64 % 64, 128 + c % 64]

/-- Python `value.encode("utf-8")` on a whole string. -/
def utf8Encode (s : String) : List Nat :=
  (s.data.map (fun c => utf8EncodeChar c.toNat)).flatten

/-- Python `buf.decode("utf-8")`: the standard validating UTF-8 decoder
(rejecting truncated sequences, stray continuation bytes, overlong forms,
surrogates and out-of-range code points), returning `none` where Python
raises `UnicodeDecodeError`. -/
def utf8DecodeChars : List Nat → Option (List Char)
  | [] => some []
  | b :: rest =>
      if b < 128 then
        (utf8DecodeChars rest).map (fun cs => Char.ofNat b :: cs)
      else if 194 ≤ b ∧ b < 224 then
        match rest with
        | b1 :: rest1 =>
            if 128 ≤ b1 ∧ b1 < 192 then
              (utf8DecodeChars rest1).map
                (fun cs => Char.ofNat ((b - 192) * 64 + (b1 - 128)) :: cs)
            else none
        | [] => none
      else if 224 ≤ b ∧ b < 240 then
        match rest with
        | b1 :: b2 :: rest2 =>
            if (128 ≤ b1 ∧ b1 < 192) ∧ 128 ≤ b2 ∧ b2 < 192 then
              let c := (b - 224) * 4096 + (b1 - 128) * 64 + (b2 - 128)
              if 2048 ≤ c ∧ ¬(55296 ≤ c ∧ c < 57344) then
                (utf8DecodeChars rest2).map (fun cs => Char.ofNat c :: cs)
              else none
            else none
        | _ => none
      else if 240 ≤ b ∧ b < 245 then
        match rest with
        | b1 :: b2 :: b3 :: rest3 =>
            if (128 ≤ b1 ∧ b1 < 192) ∧ (128 ≤ b2 ∧ b2 < 192) ∧
                128 ≤ b3 ∧ b3 < 192 then
              let c := (b - 240) * 262144 + (b1 - 128) * 4096 +
                (b2 - 128) * 64 + (b3 - 128)
              if 65536 ≤ c ∧ c < 1114112 then
                (utf8DecodeChars rest3).map (fun cs => Char.ofNat c :: cs)
              else none
            else none
        | _ => none
      else none

/-- The atom id the connection's resolver yields for `"UTF8_STRING"`: any
fixed id works for the embedding; it only needs to be non-null. -/
def utf8StringAtom : Nat := 312

/-- Accessor `Window.set_text_property` (`_interface.py` lines 191-193): encode the
string as UTF-8 and write it with storage type `UTF8_STRING`; `set_property`
tags a `bytes` payload with `nbits = 8`, so the stored property has
format 8. -/
def set_text_property (value : String) : PropValue :=
  { type_atom := utf8StringAtom, format := 8, data := utf8Encode value }

/-- Accessor `Window.get_text_property` (`_interface.py` lines 183-189): read the
property expecting `UTF8_STRING`; a `None` transport result is returned
as-is (the "absent" value), otherwise the bytes are UTF-8-decoded. -/
def get_text_property (p : Option PropValue) : Except X11Error (Option String) :=
  match GetWindowProperty p utf8StringAtom with
  | .error e => .error e
  | .ok none => .ok none
  | .ok (some items) =>
      match utf8DecodeChars items with
      | some cs => .ok (some (String.mk cs))
      | none => .error X11Error.unicodeDecodeError

/-- The state `Display.__init__` builds: just the stored result of
`lib.XOpenDisplay`, with `none` standing for the `NULL` pointer the call
returns when the display cannot be opened. -/
structure DisplayState where
  _display : Option Nat
deriving DecidableEq

/-- Constructor `Display.__init__` (`_interface.py` lines 44-47): encode the optional
display name and store whatever `lib.XOpenDisplay` returns, without
checking it.  `xOpenDisplay` is the environment: how the platform library
answers for each name. -/
def displayInit (xOpenDisplay : Option String → Option Nat) (name : Option String) :
    Except X11Error DisplayState :=
  .ok { _display := xOpenDisplay name }

/-- A PIL image fit for the icon codec at the given dictionary key: RGBA
mode, size matching the key, a byte per channel, and exactly
`4 * width * height` bytes. -/
def imageWF (size : Nat × Nat) (im : PilImage) : Bool :=
  (im.mode == "RGBA") && (im.size == size) &&
    (im.data.length == 4 * size.1 * size.2) && im.data.all (fun b => b < 256)

/-- The icon-set family named by the round-trip claim: 1 to 3 images, at
distinct sizes drawn from 16×16, 32×32, 64×64, each a well-formed RGBA
image. -/
def wfIconSet (v : IconSet) : Bool :=
  (1 ≤ v.length && v.length ≤ 3) &&
    decide ((v.map Prod.fst).Nodup) &&
    v.all (fun si =>
      decide (si.1 ∈ [(16, 16), (32, 32), (64, 64)]) && imageWF si.1 si.2)

/-- A 16×16 all-black transparent RGBA image, used as a concrete witness
input. -/
def image16 : PilImage :=
  { mode := "RGBA", size := (16, 16), data := List.replicate 1024 0 }

/-- A concrete one-image icon set at an allowed size. -/
def iconExample16 : IconSet := [((16, 16), image16)]

/-- A concrete 1×1 icon whose single pixel is opaque red:
`tobytes() = [255, 0, 0, 255]` (R, G, B, A). -/
def iconExampleRed : IconSet :=
  [((1, 1), { mode := "RGBA", size := (1, 1), data := [255, 0, 0, 255] })]

/-- A window with process id, class hint and both identifier properties
set. -/
def windowExampleFull : WindowState :=
  { pid := some 1234
    class_hint := some ("term", "Term")
    gtk_application_id := some "org.gnome.Terminal"
    startup_id := some "startup-0"
    icon := none }

/-- A window with a class hint but no process id. -/
def windowExampleNoPid : WindowState :=
  { pid := none
    class_hint := some ("term", "Term")
    gtk_application_id := none
    startup_id := none
    icon := none }

/-- Decidable equality of `Except` results, so concrete runs of the
embedded operations can be checked by `decide`. -/
instance exceptDecEq {e a : Type} [DecidableEq e] [DecidableEq a] :
    DecidableEq (Except e a) := fun x y =>
  match x, y with
  | .error u, .error v =>
      if h : u = v then isTrue (by rw [h]) else isFalse (by simp [h])
  | .ok u, .ok v =>
      if h : u = v then isTrue (by rw [h]) else isFalse (by simp [h])
  | .error _, .ok _ => isFalse (by simp)
  | .ok _, .error _ => isFalse (by simp)

/-! ## Helper lemmas for the icon codec -/

theorem bytesOfWords_length (ws : List Nat) :
    (bytesOfWords ws).length = 4 * ws.length := by
  induction ws with
  | nil => rfl
  | cons w rest ih => simp [bytesOfWords, ih]; omega

theorem wordsOfBytes_length (bs : List Nat) :
    (wordsOfBytes bs).length = bs.length / 4 := by
  induction bs using wordsOfBytes.induct with
  | case1 b0 b1 b2 b3 rest ih => simp [wordsOfBytes, ih]; omega
  | case2 bs h =>
    cases bs with
    | nil => simp [wordsOfBytes]
    | cons a t => cases t with
      | nil => simp [wordsOfBytes]
      | cons b t => cases t with
        | nil => simp [wordsOfBytes]
        | cons c t => cases t with
          | nil => simp [wordsOfBytes]
          | cons d t => exact (h a b c d t rfl).elim

theorem bytesOfWords_wordsOfBytes (bs : List Nat)
    (hlen : bs.length % 4 = 0) (hb : ∀ b ∈ bs, b < 256) :
    bytesOfWords (wordsOfBytes bs) = bs := by
  induction bs using wordsOfBytes.induct with
  | case1 b0 b1 b2 b3 rest ih =>
    simp only [wordsOfBytes, bytesOfWords, List.cons.injEq]
    have h0 : b0 < 256 := hb b0 (by simp)
    have h1 : b1 < 256 := hb b1 (by simp)
    have h2 : b2 < 256 := hb b2 (by simp)
    have h3 : b3 < 256 := hb b3 (by simp)
    refine ⟨by omega, by omega, by omega, by omega, ?_⟩
    exact ih (by simp only [List.length_cons] at hlen; omega)
      (fun b hm => hb b (by simp [hm]))
  | case2 bs h =>
    cases bs with
    | nil => simp [wordsOfBytes, bytesOfWords]
    | cons a t => cases t with
      | nil => simp at hlen
      | cons b t => cases t with
        | nil => simp at hlen
        | cons c t => cases t with
          | nil => simp at hlen
          | cons d t => exact (h a b c d t rfl).elim

theorem wordsOfBytes_eq_quads (bs : List Nat) :
    wordsOfBytes bs = (pixelQuads bs).map
      (fun q => q.2.2.2 * 2 ^ 24 + q.2.2.1 * 2 ^ 16 + q.2.1 * 2 ^ 8 + q.1) := by
  induction bs using wordsOfBytes.induct with
  | case1 b0 b1 b2 b3 rest ih =>
    simp only [wordsOfBytes, pixelQuads, List.map_cons, List.cons.injEq]
    exact ⟨by norm_num; omega, ih⟩
  | case2 bs h =>
    cases bs with
    | nil => simp [wordsOfBytes, pixelQuads]
    | cons a t => cases t with
      | nil => simp [wordsOfBytes, pixelQuads]
      | cons b t => cases t with
        | nil => simp [wordsOfBytes, pixelQuads]
        | cons c t => cases t with
          | nil => simp [wordsOfBytes, pixelQuads]
          | cons d t => exact (h a b c d t rfl).elim

theorem foldl_append_eq_flatten (ps : List (List Nat)) :
    ∀ p : List Nat, ps.foldl (· ++ ·) p = p ++ ps.flatten := by
  induction ps with
  | nil => intro p; simp
  | cons q ps ih => intro p; simp [List.foldl_cons, ih, List.append_assoc]

theorem encodeParts_eq (v : IconSet)
    (h : ∀ si ∈ v, si.2.mode = "RGBA" ∧ si.2.data.length % 4 = 0) :
    encodeParts v =
      .ok (v.map fun si => [si.1.1, si.1.2] ++ wordsOfBytes si.2.data) := by
  induction v with
  | nil => rfl
  | cons si rest ih =>
    obtain ⟨size, im⟩ := si
    obtain ⟨hm, h4⟩ := h (size, im) (by simp)
    simp only at hm h4
    simp only [encodeParts]
    rw [if_neg (by simp [hm]), if_neg (by simp [h4]),
      ih (fun si hsi => h si (List.mem_cons_of_mem _ hsi))]
    simp

theorem iconEncode_eq_flatten (v : IconSet) (hne : v ≠ [])
    (h : ∀ si ∈ v, si.2.mode = "RGBA" ∧ si.2.data.length % 4 = 0) :
    iconEncode v =
      .ok ((v.map fun si => [si.1.1, si.1.2] ++ wordsOfBytes si.2.data).flatten) := by
  rw [iconEncode, encodeParts_eq v h]
  cases v with
  | nil => exact absurd rfl hne
  | cons si rest =>
    simp only [List.map_cons]
    rw [foldl_append_eq_flatten]
    simp

theorem imageWF_iff (size : Nat × Nat) (im : PilImage) :
    imageWF size im = true ↔
      im.mode = "RGBA" ∧ im.size = size ∧
        im.data.length = 4 * size.1 * size.2 ∧ ∀ b ∈ im.data, b < 256 := by
  simp [imageWF, List.all_eq_true, and_assoc]

theorem decodeLoop_image (size : Nat × Nat) (im : PilImage) (rest : List Nat)
    (out : IconSet) (hm : im.mode = "RGBA") (hs : im.size = size)
    (hlen : im.data.length = 4 * size.1 * size.2)
    (hb : ∀ b ∈ im.data, b < 256)
    (hout : ∀ kv ∈ out, kv.1 ≠ size) :
    decodeLoop (([size.1, size.2] ++ wordsOfBytes im.data) ++ rest) out
      = decodeLoop rest (out ++ [(size, im)]) := by
  have hwlen : (wordsOfBytes im.data).length = size.1 * size.2 := by
    rw [wordsOfBytes_length, hlen, Nat.mul_assoc]
    exact Nat.mul_div_cancel_left _ (by norm_num)
  have hcons : ([size.1, size.2] ++ wordsOfBytes im.data) ++ rest
      = size.1 :: size.2 :: (wordsOfBytes im.data ++ rest) := by simp
  rw [hcons, decodeLoop]
  have htake : (wordsOfBytes im.data ++ rest).take (size.1 * size.2)
      = wordsOfBytes im.data := List.take_left' hwlen
  have hdrop : (wordsOfBytes im.data ++ rest).drop (size.1 * size.2)
      = rest := List.drop_left' hwlen
  rw [htake, hdrop, bytesOfWords_wordsOfBytes im.data
    (by rw [hlen, Nat.mul_assoc]; exact Nat.mul_mod_right 4 _) hb]
  have hfrom : pilFrombytes (size.1, size.2) im.data = .ok im := by
    rw [pilFrombytes, if_pos (by simpa using hlen)]
    cases im
    simp only at hm hs
    simp [hm, hs]
  rw [hfrom]
  show decodeLoop rest (dictInsert out (size.1, size.2) im)
    = decodeLoop rest (out ++ [(size, im)])
  have hins : dictInsert out (size.1, size.2) im = out ++ [(size, im)] := by
    rw [dictInsert, if_neg, Prod.mk.eta]
    simp only [List.any_eq_true, not_exists, not_and]
    intro kv hkv
    simpa using hout kv hkv
  rw [hins]

theorem decodeLoop_flatten (v : IconSet) :
    ∀ (rest : List Nat) (out : IconSet),
    (∀ si ∈ v, imageWF si.1 si.2 = true) →
    (v.map Prod.fst).Nodup →
    (∀ si ∈ v, ∀ kv ∈ out, kv.1 ≠ si.1) →
    decodeLoop
        ((v.map fun si => [si.1.1, si.1.2] ++ wordsOfBytes si.2.data).flatten ++ rest)
        out
      = decodeLoop rest (out ++ v) := by
  induction v with
  | nil => intro rest out _ _ _; simp
  | cons si v ih =>
    intro rest out hwf hnodup hdisj
    obtain ⟨size, im⟩ := si
    obtain ⟨hm, hs, hlen, hb⟩ := (imageWF_iff _ _).mp (hwf (size, im) (by simp))
    simp only [List.map_cons, List.flatten_cons]
    rw [List.append_assoc]
    rw [decodeLoop_image size im _ out hm hs hlen hb
      (fun kv hkv => hdisj (size, im) (by simp) kv hkv)]
    rw [ih rest (out ++ [(size, im)])
      (fun si hsi => hwf si (List.mem_cons_of_mem _ hsi))
      (by simpa using hnodup.of_cons)
      ?_]
    · simp
    · intro si hsi kv hkv
      rcases List.mem_append.mp hkv with hkv | hkv
      · exact hdisj si (List.mem_cons_of_mem _ hsi) kv hkv
      · simp only [List.mem_singleton] at hkv
        subst hkv
        simp only [List.map_cons, List.nodup_cons, List.mem_map] at hnodup
        exact fun he => hnodup.1 ⟨si, hsi, he.symm ▸ rfl⟩

theorem wfIconSet_unpack (v : IconSet) (h : wfIconSet v = true) :
    v ≠ [] ∧ (v.map Prod.fst).Nodup ∧ ∀ si ∈ v, imageWF si.1 si.2 = true := by
  simp only [wfIconSet, Bool.and_eq_true, decide_eq_true_eq, List.all_eq_true] at h
  obtain ⟨⟨⟨h1, _⟩, hnd⟩, hall⟩ := h
  refine ⟨?_, hnd, fun si hsi => (hall si hsi).2⟩
  cases v with
  | nil => simp at h1
  | cons a t => simp

/-- C4: for every icon set of 1–3 well-formed RGBA images at the sizes
16×16, 32×32, 64×64, decoding the encoder's flat 32-bit sequence gives back
the original icon set: `decode(encode(icon_set)) == icon_set`. -/
theorem icon_decode_encode_roundtrip (v : IconSet) (h : wfIconSet v = true) :
    (iconEncode v).bind iconDecode = .ok v := by
  obtain ⟨hne, hnd, hwf⟩ := wfIconSet_unpack v h
  have hm4 : ∀ si ∈ v, si.2.mode = "RGBA" ∧ si.2.data.length % 4 = 0 := by
    intro si hsi
    obtain ⟨hm, _, hlen, _⟩ := (imageWF_iff _ _).mp (hwf si hsi)
    exact ⟨hm, by rw [hlen, Nat.mul_assoc]; exact Nat.mul_mod_right 4 _⟩
  rw [iconEncode_eq_flatten v hne hm4]
  show iconDecode _ = _
  rw [iconDecode]
  have hflat := decodeLoop_flatten v [] [] hwf hnd (by simp)
  simpa [decodeLoop] using hflat

set_option maxRecDepth 40000 in
theorem icon_decode_encode_roundtrip_witness :
    wfIconSet iconExample16 = true ∧
      (iconEncode iconExample16).bind iconDecode = .ok iconExample16 :=
  ⟨by decide, icon_decode_encode_roundtrip iconExample16 (by decide)⟩

/-- C9: appending to a well-formed encoding a final `[width, height]` header
that claims more pixel words than the remaining tail supplies makes the icon
decoder fail with the malformed-icon-data error (PIL's
`ValueError("not enough image data")`), rather than silently truncating or
looping. -/
theorem icon_decode_truncated_fails (v : IconSet) (w h : Nat) (tail : List Nat)
    (hv : wfIconSet v = true) (hlt : tail.length < w * h) :
    (iconEncode v).bind (fun ws => iconDecode (ws ++ w :: h :: tail))
      = .error X11Error.malformedIconData := by
  obtain ⟨hne, hnd, hwf⟩ := wfIconSet_unpack v hv
  have hm4 : ∀ si ∈ v, si.2.mode = "RGBA" ∧ si.2.data.length % 4 = 0 := by
    intro si hsi
    obtain ⟨hm, _, hlen, _⟩ := (imageWF_iff _ _).mp (hwf si hsi)
    exact ⟨hm, by rw [hlen, Nat.mul_assoc]; exact Nat.mul_mod_right 4 _⟩
  rw [iconEncode_eq_flatten v hne hm4]
  show iconDecode _ = _
  rw [iconDecode, decodeLoop_flatten v (w :: h :: tail) [] hwf hnd (by simp)]
  rw [decodeLoop]
  have hcond : ¬ (bytesOfWords (List.take (w * h) tail)).length
      = 4 * (w, h).1 * (w, h).2 := by
    show ¬ (bytesOfWords (List.take (w * h) tail)).length = 4 * w * h
    rw [bytesOfWords_length, List.length_take, Nat.mul_assoc]
    omega
  have hpf : pilFrombytes (w, h) (bytesOfWords (tail.take (w * h)))
      = .error X11Error.malformedIconData := by
    rw [pilFrombytes, if_neg hcond]
  rw [hpf]

set_option maxRecDepth 40000 in
theorem icon_decode_truncated_fails_witness :
    wfIconSet iconExample16 = true ∧ ([0, 0, 0] : List Nat).length < 2 * 2 ∧
      (iconEncode iconExample16).bind
          (fun ws => iconDecode (ws ++ 2 :: 2 :: [0, 0, 0]))
        = .error X11Error.malformedIconData :=
  ⟨by decide, by decide,
    icon_decode_truncated_fails iconExample16 2 2 [0, 0, 0] (by decide) (by decide)⟩

/-- C6 counterexample: on a 1×1 icon whose single RGBA pixel is
`(r, g, b, a) = (255, 0, 0, 255)`, the encoder emits the 32-bit word
`(a<<24)|(b<<16)|(g<<8)|r = 4278190335` and not the claimed
`(a<<24)|(r<<16)|(g<<8)|b = 4294901760`: `array("i", im.tobytes())`
reinterprets the `R,G,B,A` byte order little-endian, so red lands in the
least significant byte. -/
theorem icon_encode_word_order_cex :
    iconEncode iconExampleRed
        = .ok [1, 1, 255 * 2 ^ 24 + 0 * 2 ^ 16 + 0 * 2 ^ 8 + 255] ∧
      iconEncode iconExampleRed
        ≠ .ok [1, 1, 255 * 2 ^ 24 + 255 * 2 ^ 16 + 0 * 2 ^ 8 + 0] := by
  exact ⟨by decide, by decide⟩

/-- C6 amended: for every non-empty icon set of RGBA images with whole
pixels, the encoder emits, per `(size, image)` pair in dictionary order, the
2-element header `[width, height]` followed by one 32-bit word per pixel
packing it as `(alpha<<24)|(blue<<16)|(green<<8)|red` — the little-endian
reading of the `R,G,B,A` byte stream — not alpha-red-green-blue
most-significant-byte-first. -/
theorem icon_encode_layout (v : IconSet) (hne : v ≠ [])
    (h : ∀ si ∈ v, si.2.mode = "RGBA" ∧ si.2.data.length % 4 = 0) :
    iconEncode v = .ok ((v.map fun si =>
      [si.1.1, si.1.2] ++ (pixelQuads si.2.data).map
        (fun q => q.2.2.2 * 2 ^ 24 + q.2.2.1 * 2 ^ 16 + q.2.1 * 2 ^ 8 + q.1)).flatten) := by
  rw [iconEncode_eq_flatten v hne h]
  have hfun : (fun si : (Nat × Nat) × PilImage =>
        [si.1.1, si.1.2] ++ wordsOfBytes si.2.data)
      = (fun si => [si.1.1, si.1.2] ++ (pixelQuads si.2.data).map
        (fun q => q.2.2.2 * 2 ^ 24 + q.2.2.1 * 2 ^ 16 + q.2.1 * 2 ^ 8 + q.1)) := by
    funext si
    rw [wordsOfBytes_eq_quads]
  rw [hfun]

theorem icon_encode_layout_witness :
    iconExampleRed ≠ [] ∧
      (∀ si ∈ iconExampleRed, si.2.mode = "RGBA" ∧ si.2.data.length % 4 = 0) ∧
      iconEncode iconExampleRed = .ok ((iconExampleRed.map fun si =>
        [si.1.1, si.1.2] ++ (pixelQuads si.2.data).map
          (fun q => q.2.2.2 * 2 ^ 24 + q.2.2.1 * 2 ^ 16 + q.2.1 * 2 ^ 8 + q.1)).flatten) :=
  ⟨by decide, by decide, icon_encode_layout iconExampleRed (by decide) (by decide)⟩

/-! ## The icon setter's snapshot/restore protocol -/

/-- C1: invoking the icon setter on a window whose process id and class
hint are both present restores both to their exact prior values on every
exit path — in particular when the `_NET_WM_ICON` write is made to fail —
and a failing write still propagates its error to the caller. -/
theorem icon_setter_restores_present_props (w : WindowState) (v : IconSet)
    (writeFails : Bool) (p : Nat) (ch : String × String)
    (hp : w.pid = some p) (hc : w.class_hint = some ch) :
    (iconSetRun w v writeFails).2.pid = some p ∧
      (iconSetRun w v writeFails).2.class_hint = some ch ∧
      (writeFails = true → (iconSetRun w v writeFails).1.isSome = true) := by
  cases henc : iconEncode v with
  | error e => simp [iconSetRun, henc, hp, hc]
  | ok data =>
    cases writeFails <;>
      cases hg : w.gtk_application_id <;>
      cases hs : w.startup_id <;>
      simp [iconSetRun, henc, hp, hc, hg, hs]

theorem icon_setter_restores_present_props_witness :
    windowExampleFull.pid = some 1234 ∧
      windowExampleFull.class_hint = some ("term", "Term") ∧
      (iconSetRun windowExampleFull iconExampleRed true).2.pid = some 1234 ∧
      (iconSetRun windowExampleFull iconExampleRed true).2.class_hint
        = some ("term", "Term") ∧
      (true = true →
        (iconSetRun windowExampleFull iconExampleRed true).1.isSome = true) := by
  refine ⟨by decide, by decide, ?_⟩
  exact icon_setter_restores_present_props windowExampleFull iconExampleRed
    true 1234 ("term", "Term") (by decide) (by decide)

/-- C3 counterexample: a window with *no* process id before the call does
not stay without one — the setter writes the placeholder `2 ** 21` and the
restore loop skips snapshotted values that were `None`, so afterwards the
process id is present and equals `2097152`. -/
theorem icon_setter_pid_not_absent_cex :
    (iconSetRun windowExampleNoPid iconExampleRed false).2.pid = some 2097152 ∧
      (iconSetRun windowExampleNoPid iconExampleRed false).2.pid ≠ none := by
  exact ⟨by decide, by decide⟩

/-- C3 amended: whenever the encode step succeeds, the icon setter leaves
`class_hint`, `gtk_application_id` and `startup_id` exactly as they were
(present values restored, absent values still absent), and leaves `pid`
restored to its prior value when one was present but set to the placeholder
`2 ** 21 = 2097152` when the window had no process id before the call. -/
theorem icon_setter_frame_effect (w : WindowState) (v : IconSet)
    (writeFails : Bool) (henc : ∃ data, iconEncode v = Except.ok data) :
    (iconSetRun w v writeFails).2.class_hint = w.class_hint ∧
      (iconSetRun w v writeFails).2.gtk_application_id = w.gtk_application_id ∧
      (iconSetRun w v writeFails).2.startup_id = w.startup_id ∧
      (iconSetRun w v writeFails).2.pid = some (w.pid.getD 2097152) := by
  obtain ⟨data, henc⟩ := henc
  cases writeFails <;>
    cases hp : w.pid <;>
    cases hc : w.class_hint <;>
    cases hg : w.gtk_application_id <;>
    cases hs : w.startup_id <;>
    simp [iconSetRun, henc, hp, hc, hg, hs]

theorem icon_setter_frame_effect_witness :
    (∃ data, iconEncode iconExampleRed = Except.ok data) ∧
      (iconSetRun windowExampleNoPid iconExampleRed false).2.class_hint
        = windowExampleNoPid.class_hint ∧
      (iconSetRun windowExampleNoPid iconExampleRed false).2.gtk_application_id
        = windowExampleNoPid.gtk_application_id ∧
      (iconSetRun windowExampleNoPid iconExampleRed false).2.startup_id
        = windowExampleNoPid.startup_id ∧
      (iconSetRun windowExampleNoPid iconExampleRed false).2.pid
        = some (windowExampleNoPid.pid.getD 2097152) :=
  ⟨⟨[1, 1, 4278190335], by decide⟩,
    icon_setter_frame_effect windowExampleNoPid iconExampleRed false
      ⟨[1, 1, 4278190335], by decide⟩⟩

/-! ## The chunked property transport -/

theorem serverRead_req_zero (pv : PropValue) (off len : Nat) :
    serverRead (some pv) off len 0 =
      ⟨pv.type_atom, pv.format,
        min (pv.data.length - off * unitsPerLong pv.format)
          (len * unitsPerLong pv.format),
        (pv.data.length - off * unitsPerLong pv.format -
            min (pv.data.length - off * unitsPerLong pv.format)
              (len * unitsPerLong pv.format)) * bytesPerItem pv.format,
        (pv.data.drop (off * unitsPerLong pv.format)).take
          (min (pv.data.length - off * unitsPerLong pv.format)
            (len * unitsPerLong pv.format))⟩ := by
  rw [serverRead, if_neg (by simp)]

theorem getPropGo_eq (pv : PropValue) (ht : ¬ pv.type_atom = 0)
    (hf : pv.format = 8 ∨ pv.format = 32) :
    ∀ long_offset, getPropGo (some pv) long_offset
      = .ok (some (pv.data.drop (long_offset * unitsPerLong pv.format))) := by
  have hupl : unitsPerLong pv.format = 4 ∨ unitsPerLong pv.format = 1 := by
    rcases hf with h | h <;> rw [h] <;> simp [unitsPerLong]
  have hbpi : bytesPerItem pv.format = 1 ∨ bytesPerItem pv.format = 4 := by
    rcases hf with h | h <;> rw [h] <;> simp [bytesPerItem]
  suffices H : ∀ n off, pv.data.length - off * unitsPerLong pv.format = n →
      getPropGo (some pv) off
        = .ok (some (pv.data.drop (off * unitsPerLong pv.format))) from
    fun off => H _ off rfl
  intro n
  induction n using Nat.strong_induction_on with
  | _ n ih =>
    intro off hm
    rw [getPropGo]
    simp only [serverRead_req_zero]
    rw [dif_neg ht, dif_pos hf]
    by_cases hb : (pv.data.length - off * unitsPerLong pv.format -
        min (pv.data.length - off * unitsPerLong pv.format)
          (65536 * unitsPerLong pv.format)) * bytesPerItem pv.format = 0
    · rw [dif_pos hb]
      rw [List.take_of_length_le (by
        rw [List.length_drop]
        rcases hbpi with h | h <;> rw [h] at hb <;> omega)]
    · rw [dif_neg hb]
      have hmin : min (pv.data.length - off * unitsPerLong pv.format)
          (65536 * unitsPerLong pv.format) = 65536 * unitsPerLong pv.format := by
        rcases hbpi with h | h <;> rw [h] at hb <;> omega
      have hlt : pv.data.length - (off + 65536) * unitsPerLong pv.format < n := by
        rw [Nat.add_mul]
        rcases hupl with h | h <;> rw [h] at hmin hm ⊢ <;>
          rcases hbpi with h' | h' <;> rw [h'] at hb <;> omega
      rw [ih _ hlt (off + 65536) rfl]
      dsimp only
      rw [hmin]
      have hsplit : (off + 65536) * unitsPerLong pv.format
          = off * unitsPerLong pv.format + 65536 * unitsPerLong pv.format := by
        ring
      rw [hsplit, ← List.drop_drop, List.take_append_drop]

/-- C2: for a property value of any length and format, the chunked loop
(bounded 65536-long reads, offset advanced by the chunk size, chunks
concatenated in order until no bytes remain) returns exactly what one
unbounded read returns — including for the absent property and for every
error case — and for a present readable property the reassembled value is
the stored item list itself: no loss, reordering or duplication. -/
theorem chunked_read_eq_unbounded_read (pv : PropValue) (n : Nat)
    (hn : pv.data.length ≤ n * unitsPerLong pv.format) :
    GetWindowProperty (some pv) 0 = getWindowPropertySingleRead (some pv) n ∧
      GetWindowProperty none 0 = getWindowPropertySingleRead none n ∧
      (¬ pv.type_atom = 0 → pv.format = 8 ∨ pv.format = 32 →
        GetWindowProperty (some pv) 0 = .ok (some pv.data)) := by
  have hwhole : ¬ pv.type_atom = 0 → pv.format = 8 ∨ pv.format = 32 →
      GetWindowProperty (some pv) 0 = .ok (some pv.data) := by
    intro ht hf
    rw [GetWindowProperty, getPropGo_eq pv ht hf 0]
    simp
  refine ⟨?_, ?_, hwhole⟩
  · by_cases ht : pv.type_atom = 0
    · rw [GetWindowProperty, getPropGo, getWindowPropertySingleRead]
      simp [serverRead_req_zero, ht]
    · by_cases hf : pv.format = 8 ∨ pv.format = 32
      · rw [hwhole ht hf, getWindowPropertySingleRead]
        simp only [serverRead_req_zero]
        rw [if_neg ht, if_pos hf]
        rw [Nat.zero_mul, Nat.sub_zero, List.drop_zero,
          Nat.min_eq_left hn, List.take_length]
      · rw [GetWindowProperty, getPropGo, getWindowPropertySingleRead]
        simp only [serverRead_req_zero]
        rw [dif_neg ht, dif_neg hf, if_neg ht, if_neg hf]
  · rw [GetWindowProperty, getPropGo, getWindowPropertySingleRead]
    simp [serverRead]

theorem chunked_read_eq_unbounded_read_witness :
    (⟨1, 32, [5, 6, 7]⟩ : PropValue).data.length
        ≤ 3 * unitsPerLong (⟨1, 32, [5, 6, 7]⟩ : PropValue).format ∧
      (GetWindowProperty (some ⟨1, 32, [5, 6, 7]⟩) 0
          = getWindowPropertySingleRead (some ⟨1, 32, [5, 6, 7]⟩) 3 ∧
        GetWindowProperty none 0 = getWindowPropertySingleRead none 3 ∧
        (¬ (⟨1, 32, [5, 6, 7]⟩ : PropValue).type_atom = 0 →
          (⟨1, 32, [5, 6, 7]⟩ : PropValue).format = 8 ∨
            (⟨1, 32, [5, 6, 7]⟩ : PropValue).format = 32 →
          GetWindowProperty (some ⟨1, 32, [5, 6, 7]⟩) 0 = .ok (some [5, 6, 7]))) :=
  ⟨by decide, chunked_read_eq_unbounded_read ⟨1, 32, [5, 6, 7]⟩ 3 (by decide)⟩

/-- C5: evidence for the 16-bit divergence and for the behaviour on the
other formats.  A stored format-16 property makes the transport raise
`NameError` — `_raw.py` line 153 names `c_short`, which is never imported —
instead of decoding the chunk; formats 8 and 32 decode, and any other
format raises the unexpected-bit-size `RuntimeError` (the spec's
`UnsupportedPropertyFormat`). -/
theorem format16_read_raises_nameError :
    GetWindowProperty (some ⟨1, 16, [7]⟩) 0 = .error X11Error.nameErrorCShort ∧
      GetWindowProperty (some ⟨1, 8, [65, 66]⟩) 0 = .ok (some [65, 66]) ∧
      GetWindowProperty (some ⟨1, 32, [7, 9]⟩) 0 = .ok (some [7, 9]) ∧
      GetWindowProperty (some ⟨1, 13, [7]⟩) 0
        = .error (X11Error.unexpectedBitSize 13) := by
  refine ⟨?_, ?_, ?_, ?_⟩
  · rw [GetWindowProperty, getPropGo]
    simp [serverRead_req_zero]
  · rw [GetWindowProperty, getPropGo_eq ⟨1, 8, [65, 66]⟩ (by simp) (by norm_num) 0]
    simp
  · rw [GetWindowProperty, getPropGo_eq ⟨1, 32, [7, 9]⟩ (by simp) (by norm_num) 0]
    simp
  · rw [GetWindowProperty, getPropGo]
    simp [serverRead_req_zero]

/-- C10: the transport result does not depend on the caller-supplied
expected type: `GetWindowProperty` overwrites it with `XAtom(0)`
(`AnyPropertyType`) before the first request (`_raw.py` line 119), so any
two expected-type atoms give identical reads. -/
theorem get_property_ignores_expected_type (p : Option PropValue) (t1 t2 : Nat) :
    GetWindowProperty p t1 = GetWindowProperty p t2 := rfl

/-! ## Text properties and display open -/

/-- C7: a text property that was never set reads back as the distinct
"absent" value (`None`), not as the empty string; after writing the empty
string the getter returns `""`; and absence is signalled by the transport
returning "no value" — not an error — which happens exactly when the first
reply's actual type atom is the null atom. -/
theorem text_property_absent_vs_empty :
    get_text_property none = .ok none ∧
      (Except.ok none : Except X11Error (Option String)) ≠ .ok (some "") ∧
      get_text_property (some (set_text_property "")) = .ok (some "") ∧
      GetWindowProperty none utf8StringAtom = .ok none ∧
      (serverRead none 0 65536 0).actual_type = 0 := by
  have habsent : GetWindowProperty none utf8StringAtom = .ok none := by
    rw [GetWindowProperty, getPropGo]
    simp [serverRead]
  have hempty : GetWindowProperty (some (set_text_property "")) utf8StringAtom
      = .ok (some []) := by
    rw [GetWindowProperty,
      getPropGo_eq (set_text_property "") (by decide) (Or.inl rfl) 0]
    decide
  refine ⟨?_, by simp, ?_, habsent, rfl⟩
  · rw [get_text_property, habsent]
  · rw [get_text_property, hempty]
    decide

/-- C8 counterexample: with the platform library reporting the display as
unreachable (a `NULL` result from `XOpenDisplay`), the constructor does not
fail with a connection error — it returns normally, wrapping the null
session handle. -/
theorem display_open_null_cex :
    displayInit (fun _ => none) (some ":1") = .ok { _display := none } := rfl

/-- C8 amended: `Display.__init__` never raises; it stores whatever the
underlying `XOpenDisplay` call returns — the null handle included — and
any failure surfaces only when the handle is later used. -/
theorem display_open_stores_raw_result
    (xOpenDisplay : Option String → Option Nat) (name : Option String) :
    displayInit xOpenDisplay name = .ok { _display := xOpenDisplay name } := rfl
